import Mathlib

/-!
Verification of the statement-import and categorization pipeline of the
PersonalFinancesTracker repository. The definitions below are a shallow
embedding of the Python source, chiefly src/utils/categorization.py,
src/utils/data_import.py and src/pages/import_data.py. Pandas dataframes
are modelled as lists of named columns of cells, Python floats as rationals,
nullable values as options, and raised exceptions as Except errors.
-/

namespace PFT

/-! ## String primitives modelling the Python string operations used -/

/-- Python str.lower on the ASCII inputs this pipeline handles. -/
def lowerStr (s : String) : List Char :=
  s.data.map Char.toLower

/-- Membership in the regex word class backslash-w, for the ASCII inputs used. -/
def isWordChar (c : Char) : Bool :=
  c.isAlphanum || c == '_'

/-- Checks that the keyword is a leading segment of the text and that the
character right after the match, if any, is a non-word character (the closing
word boundary of the regex used in get_category). -/
def tailBoundary : List Char → List Char → Bool
  | [], [] => true
  | [], c :: _ => !isWordChar c
  | _ :: _, [] => false
  | k :: ks, c :: cs => k == c && tailBoundary ks cs

/-- Scans every position of the text for a word-boundary-delimited occurrence
of the keyword; prevW records whether the previous character was a word
character (false at the start of the text). -/
def wbSearchAux (kw : List Char) : List Char → Bool → Bool
  | [], _ => false
  | c :: cs, prevW => (!prevW && tailBoundary kw (c :: cs)) || wbSearchAux kw cs (isWordChar c)

/-- Models re.search of an escaped keyword wrapped in word boundaries against
an already-lowercased description, as done in get_category. Every keyword in
the table starts and ends with a word character, so the boundary requirement
reduces to the neighbour tests performed here. -/
def keywordSearch (kw : String) (desc : List Char) : Bool :=
  wbSearchAux kw.data desc false

/-- Checks that the first list is a leading segment of the second. -/
def prefixEq : List Char → List Char → Bool
  | [], _ => true
  | _ :: _, [] => false
  | a :: as, b :: bs => a == b && prefixEq as bs

/-- Plain substring containment, modelling the Python in operator on strings. -/
def listContains (needle : List Char) : List Char → Bool
  | [] => needle.isEmpty
  | c :: cs => prefixEq needle (c :: cs) || listContains needle cs

/-! ## Data model: the canonical transaction schema -/

/-- The canonical transaction row produced by the import pipeline:
{date, description, amount, source, category, original_category}.
Nullable pandas cells are options; the float amount is a rational. -/
structure Transaction where
  date : Option String
  description : Option String
  amount : Rat
  source : String
  category : Option String
  original_category : Option String
deriving Repr, DecidableEq

/-! ## Categorization (src/utils/categorization.py) -/

/-- The category-to-keywords table defined at the top of
categorize_transactions (src/utils/categorization.py lines 15-33),
in its dict insertion order. -/
def categories : List (String × List String) :=
  [ ("Groceries", ["trader", "safeway", "grocery", "market", "food", "whole foods", "albertsons", "kroger", "publix", "aldi"]),
    ("Dining", ["restaurant", "mcdonalds", "starbucks", "coffee", "doordash", "grubhub", "uber eats", "chipotle", "wendys", "burger", "pizza", "taco", "cafe"]),
    ("Transportation", ["uber", "lyft", "gas", "shell", "chevron", "transit", "parking", "exxon", "mobil", "bp", "valero", "toll", "auto", "car"]),
    ("Shopping", ["amazon", "target", "walmart", "bestbuy", "ebay", "etsy", "costco", "sams club", "macys", "nordstrom", "tj maxx", "marshalls", "kohls"]),
    ("Entertainment", ["netflix", "hbo", "spotify", "movie", "hulu", "disney", "theatre", "theater", "cinema", "apple music", "prime video", "youtube", "games"]),
    ("Housing", ["rent", "mortgage", "hoa", "maintenance", "apartment", "property", "lease", "landlord", "home", "house"]),
    ("Utilities", ["electric", "water", "gas", "internet", "phone", "utility", "bill", "power", "cable", "comcast", "verizon", "at&t", "sprint", "sewer"]),
    ("Health", ["doctor", "pharmacy", "medical", "fitness", "gym", "health", "dental", "vision", "cvs", "walgreens", "hospital", "clinic", "insurance"]),
    ("Insurance", ["insurance", "geico", "allstate", "state farm", "progressive", "nationwide", "liberty mutual", "farmers", "policy"]),
    ("Education", ["tuition", "course", "book", "school", "university", "college", "student", "loan", "class", "education", "learning"]),
    ("Income", ["payroll", "salary", "deposit", "dividend", "direct deposit", "payment received", "interest", "refund", "tax return"]),
    ("Investments", ["investment", "transfer to", "schwab", "fidelity", "vanguard", "etrade", "robinhood", "stocks", "bonds", "mutual fund", "retirement"]),
    ("Subscriptions", ["subscription", "membership", "monthly", "annual fee", "renewal", "recurring"]),
    ("Travel", ["hotel", "flight", "airbnb", "airline", "expedia", "booking.com", "airfare", "vacation", "travel", "resort", "cruise", "tour", "trip"]),
    ("Personal Care", ["salon", "haircut", "spa", "beauty", "cosmetics", "barber", "stylist", "nail", "massage"]),
    ("Gifts & Donations", ["gift", "donation", "charity", "donate", "present", "gofundme", "fundraiser", "patreon", "kickstarter"]),
    ("Fees & Charges", ["fee", "charge", "interest", "overdraft", "penalty", "late", "service charge", "atm fee", "bank fee"]) ]

/-- get_category (src/utils/categorization.py lines 36-46): a null or empty
description is Uncategorized; otherwise the description is lowercased and the
first category whose keyword list has a word-boundary hit wins, with
Miscellaneous as the fallback. -/
def get_category (description : Option String) : String :=
  match description with
  | none => "Uncategorized"
  | some d =>
    if d = "" then "Uncategorized"
    else
      match categories.find? (fun p => p.2.any (fun kw => keywordSearch kw (lowerStr d))) with
      | some p => p.1
      | none => "Miscellaneous"

/-- The bank-to-standard category mapping dict of map_original_category
(src/utils/categorization.py lines 80-120), in dict insertion order with the
duplicate keys of the literal collapsed to their first position (every
duplicate key in the source carries the same value). -/
def bank_category_mapping : List (String × String) :=
  [ ("Food & Drink", "Dining"),
    ("Groceries", "Groceries"),
    ("Travel", "Travel"),
    ("Shopping", "Shopping"),
    ("Bills & Utilities", "Utilities"),
    ("Health & Wellness", "Health"),
    ("Entertainment", "Entertainment"),
    ("Gas", "Transportation"),
    ("Home", "Housing"),
    ("Education", "Education"),
    ("Personal", "Personal Care"),
    ("Gifts & Donations", "Gifts & Donations"),
    ("Business Services", "Miscellaneous"),
    ("Dining", "Dining"),
    ("Grocery", "Groceries"),
    ("Travel & Entertainment", "Entertainment"),
    ("Household Expenses", "Housing"),
    ("Auto & Transport", "Transportation"),
    ("Subscriptions", "Subscriptions"),
    ("Income & Transfers", "Income"),
    ("Dining Out", "Dining"),
    ("Groceries/Supermarkets", "Groceries"),
    ("Transportation", "Transportation"),
    ("Shopping/Retail", "Shopping"),
    ("Home/Rent", "Housing"),
    ("Utilities", "Utilities"),
    ("Health/Medical", "Health"),
    ("Insurance", "Insurance"),
    ("Education/School", "Education"),
    ("Income", "Income"),
    ("Investments", "Investments"),
    ("Travel/Vacation", "Travel") ]

/-- map_original_category (src/utils/categorization.py lines 67-131):
null maps to Uncategorized; otherwise an exact key lookup, then a
case-insensitive substring match over the keys in order, then Miscellaneous. -/
def map_original_category (original : Option String) : String :=
  match original with
  | none => "Uncategorized"
  | some o =>
    match bank_category_mapping.lookup o with
    | some std => std
    | none =>
      match bank_category_mapping.find? (fun p => listContains (lowerStr p.1) (lowerStr o)) with
      | some p => p.2
      | none => "Miscellaneous"

/-- The row function of the first apply in categorize_transactions
(src/utils/categorization.py lines 52-57), used when some row of the batch
has a non-null original_category. -/
def categorize_row_with_original (t : Transaction) : Transaction :=
  { t with category := some (match t.original_category with
      | some oc => map_original_category (some oc)
      | none => match t.category with
        | some c => c
        | none => get_category t.description) }

/-- The row function of the second apply in categorize_transactions
(src/utils/categorization.py lines 60-63), used when no row of the batch has
an original_category. -/
def categorize_row_keyword (t : Transaction) : Transaction :=
  { t with category := some (match t.category with
      | some c => c
      | none => get_category t.description) }

/-- categorize_transactions (src/utils/categorization.py lines 4-65) on a
batch in the canonical schema, where the original_category column always
exists, so the branch test reduces to the notna().any() part. -/
def categorize_transactions (df : List Transaction) : List Transaction :=
  if df.any (fun t => t.original_category.isSome) then
    df.map categorize_row_with_original
  else
    df.map categorize_row_keyword

/-! ## Sign normalization (src/utils/categorization.py lines 301-344) -/

/-- get_income_categories (src/utils/categorization.py lines 301-308). -/
def get_income_categories : List String :=
  ["Income", "Investments", "Refund"]

/-- apply_sign (src/utils/categorization.py lines 328-339): zero amounts pass
through; income categories force the absolute value; everything else,
including a null category, forces the negated absolute value. -/
def apply_sign (t : Transaction) : Rat :=
  if t.amount = 0 then t.amount
  else if (match t.category with
           | some c => get_income_categories.contains c
           | none => false) then |t.amount|
  else -|t.amount|

/-- normalize_transaction_signs (src/utils/categorization.py lines 310-344):
copies the frame and rewrites only the amount column through apply_sign. The
df.copy() of the source is reflected by this being a pure function of the
input list. -/
def normalize_transaction_signs (df : List Transaction) : List Transaction :=
  df.map (fun t => { t with amount := apply_sign t })

/-! ## File type detection (src/utils/data_import.py lines 343-359) -/

/-- Index of the last occurrence of a character in a list, if any. -/
def lastIdxOf (c : Char) (s : List Char) : Option Nat :=
  (List.range s.length).foldl (fun acc i => if s.get? i = some c then some i else acc) none

/-- True when some position j with lo ≤ j < hi holds a character other than a
dot; this is the scan os.path.splitext performs over the leading dots of the
base name. -/
def hasNonDot (s : List Char) (lo hi : Nat) : Bool :=
  (List.range s.length).any (fun j => decide (lo ≤ j) && decide (j < hi) && (s.get? j != some '.'))

/-- os.path.splitext on a posix path, returning only the extension component
(with its dot, possibly empty): the extension starts at the last dot after the
last slash, provided the base name is not made of leading dots only. -/
def splitext_ext (s : List Char) : List Char :=
  let start : Nat := match lastIdxOf '/' s with
    | some i => i + 1
    | none => 0
  match lastIdxOf '.' s with
  | none => []
  | some d =>
    if start ≤ d then
      if hasNonDot s start d then s.drop d else []
    else []

/-- The extension dispatch of detect_file_type: .csv and .pdf are recognised,
everything else is unknown. -/
def extension_class (ext : List Char) : String :=
  if ext = ".csv".data then "csv"
  else if ext = ".pdf".data then "pdf"
  else "unknown"

/-- detect_file_type (src/utils/data_import.py lines 343-359): lowercases the
path, splits off the extension, and classifies by extension alone. -/
def detect_file_type (filepath : String) : String :=
  extension_class (splitext_ext (lowerStr filepath))

/-! ## The dataframe model for the import pipeline -/

/-- A pandas cell: missing value, string, float (as a rational), or a
timestamp truncated to its calendar date. -/
inductive Cell where
  | null
  | str (s : String)
  | num (q : Rat)
  | date (y m d : Nat)
deriving Repr, DecidableEq

/-- A dataframe as its ordered list of named columns. -/
abbrev DataFrame := List (String × List Cell)

/-- The exceptions the import path can raise, before the final wrapper turns
them into a generic Exception string. missingColumn is the error shape the
specification demands (a MissingColumnError naming the unbound field and the
headers seen); the import code never constructs it. -/
inductive ImportError where
  | keyError (field : String)
  | unsupportedSource (source : String)
  | unsupportedFormat (fileType : String)
  | extractionFailure (source : String)
  | dateParse (raw : String)
  | outOfBoundsDatetime (raw : String)
  | typeError
  | floatParse (raw : String)
  | missingColumn (field : String) (headers : List String)
deriving Repr, DecidableEq

/-- Decidable equality of Except results, used to evaluate the pipeline on
concrete fixtures. -/
instance {ε α : Type} [DecidableEq ε] [DecidableEq α] : DecidableEq (Except ε α)
  | .ok a, .ok b =>
    if h : a = b then .isTrue (by rw [h]) else .isFalse (by simp [h])
  | .ok _, .error _ => .isFalse (by simp)
  | .error _, .ok _ => .isFalse (by simp)
  | .error e, .error f =>
    if h : e = f then .isTrue (by rw [h]) else .isFalse (by simp [h])

/-- List.mapM specialised to Except with the evaluation order of a pandas
columnwise application: the first failing cell aborts the column. -/
def mapExcept (f : α → Except ImportError β) : List α → Except ImportError (List β)
  | [] => .ok []
  | a :: as =>
    match f a with
    | .error e => .error e
    | .ok b =>
      match mapExcept f as with
      | .error e => .error e
      | .ok bs => .ok (b :: bs)

/-- df.rename(columns=m): every column whose name is a key of m gets the
mapped name, all others keep theirs. -/
def rename_columns (m : List (String × String)) (df : DataFrame) : DataFrame :=
  df.map (fun p => ((m.lookup p.1).getD p.1, p.2))

/-- Column access df[n], as an option (pandas raises KeyError when absent). -/
def df_get_col (df : DataFrame) (n : String) : Option (List Cell) :=
  df.lookup n

/-- Column assignment df[n] = v: replaces the column in place when present,
appends it at the end otherwise. -/
def df_set_col (df : DataFrame) (n : String) (v : List Cell) : DataFrame :=
  if df.any (fun p => p.1 == n) then df.map (fun p => if p.1 == n then (n, v) else p)
  else df ++ [(n, v)]

/-- The row count of a dataframe, read off the first column (the inputs the
pipeline receives from pd.read_csv are rectangular). -/
def df_num_rows (df : DataFrame) : Nat :=
  match df with
  | [] => 0
  | p :: _ => p.2.length

/-- df.empty: no columns or no rows. -/
def df_empty (df : DataFrame) : Bool :=
  df.isEmpty || df_num_rows df = 0

/-! ## Date parsing (the pd.to_datetime call at src/utils/data_import.py line 80) -/

/-- Splits a character list on a separator character, keeping empty segments. -/
def splitChar (sep : Char) : List Char → List (List Char)
  | [] => [[]]
  | c :: cs =>
    if c == sep then [] :: splitChar sep cs
    else
      match splitChar sep cs with
      | [] => [[c]]
      | g :: gs => (c :: g) :: gs

/-- Digits to a natural number (most significant first). -/
def digitsToNat (cs : List Char) : Nat :=
  cs.foldl (fun n c => 10 * n + (c.toNat - 48)) 0

/-- Non-empty and all decimal digits. -/
def allDigits (cs : List Char) : Bool :=
  !cs.isEmpty && cs.all Char.isDigit

/-- A plausible calendar month and day, as the parser accepts. -/
def validMonthDay (m d : Nat) : Bool :=
  decide (1 ≤ m) && decide (m ≤ 12) && decide (1 ≤ d) && decide (d ≤ 31)

/-- dateutil convertyear: a two-digit (or shorter) year token is moved into
the 100-year window centred on the current calendar year; a token of four
digits, or a value of at least 100, is taken as written. -/
def convertyear (currentYear yy : Nat) : Nat :=
  let y := yy + currentYear / 100 * 100
  if y + 50 ≤ currentYear then y + 100
  else if currentYear + 50 ≤ y then y - 100
  else y

/-- Day-granularity date order, lexicographic on (year, month, day). -/
def date_le (y1 m1 d1 y2 m2 d2 : Nat) : Bool :=
  decide (y1 < y2) ||
    (decide (y1 = y2) && (decide (m1 < m2) || (decide (m1 = m2) && decide (d1 ≤ d2))))

/-- The pandas nanosecond Timestamp range at day granularity: Timestamp.min
is 1677-09-21T00:12, so 1677-09-22 is the first fully representable day, and
Timestamp.max is 2262-04-11T23:47. Dates outside raise OutOfBoundsDatetime. -/
def timestamp_in_bounds (y m d : Nat) : Bool :=
  date_le 1677 9 22 y m d && date_le y m d 2262 4 11

/-- Models the string parsing of pandas.to_datetime on the date shapes this
repository produces: slashed month/day/year dates (a four-digit year or a
value of at least 100 taken as written, shorter year tokens completed by
convertyear) and ISO YYYY-MM-DD. A year-less MM/DD is parsed against the
pandas default of datetime(1, 1, 1), so its year resolves to 1, not to the
current year. Strings matching none of these shapes raise, as pandas does
with the default errors policy. currentYear is the ambient calendar year
dateutil reads from the clock for two-digit years. -/
def parse_date (currentYear : Nat) (s : String) : Option (Nat × Nat × Nat) :=
  match splitChar '/' s.data with
  | [a, b] =>
    if allDigits a && allDigits b && validMonthDay (digitsToNat a) (digitsToNat b) then
      some (1, digitsToNat a, digitsToNat b)
    else none
  | [a, b, c] =>
    if allDigits a && allDigits b && allDigits c
        && validMonthDay (digitsToNat a) (digitsToNat b) then
      if decide (100 ≤ digitsToNat c) || decide (c.length = 4) then
        some (digitsToNat c, digitsToNat a, digitsToNat b)
      else
        some (convertyear currentYear (digitsToNat c), digitsToNat a, digitsToNat b)
    else none
  | _ =>
    match splitChar '-' s.data with
    | [a, b, c] =>
      if allDigits a && decide (a.length = 4) && allDigits b && allDigits c
          && validMonthDay (digitsToNat b) (digitsToNat c) then
        some (digitsToNat a, digitsToNat b, digitsToNat c)
      else none
    | _ => none

/-- pd.to_datetime on one cell: missing stays missing (NaT), timestamps pass
through, numbers convert through the epoch (value abstracted to the epoch
date), and strings parse or raise; a parsed date outside the nanosecond
Timestamp range raises OutOfBoundsDatetime, which is how the year-1 default
of a year-less MM/DD surfaces. -/
def to_datetime_cell (currentYear : Nat) : Cell → Except ImportError Cell
  | .null => .ok .null
  | .date y m d => .ok (.date y m d)
  | .num _ => .ok (.date 1970 1 1)
  | .str s =>
    match parse_date currentYear s with
    | some (y, m, d) =>
      if timestamp_in_bounds y m d then .ok (.date y m d)
      else .error (.outOfBoundsDatetime s)
    | none => .error (.dateParse s)

/-- Unary minus on an amount cell (line 85): floats negate, missing values
stay missing, strings and timestamps raise TypeError. -/
def negate_cell : Cell → Except ImportError Cell
  | .null => .ok .null
  | .num q => .ok (.num (-q))
  | .str _ => .error .typeError
  | .date _ _ _ => .error .typeError

/-- Removes every dollar sign and comma, modelling the two str.replace calls
of the amount cleanup (line 105). -/
def strip_money (s : String) : String :=
  String.mk (s.data.filter (fun c => !(c == '$' || c == ',')))

/-- Models float(s) on the cleaned amount strings: optional sign, then
digits with an optional fractional part. -/
def parse_float (s : String) : Option Rat :=
  match s.data with
  | '-' :: rest => (parse_float_unsigned rest).map (fun q => -q)
  | '+' :: rest => parse_float_unsigned rest
  | rest => parse_float_unsigned rest
where
  parse_float_unsigned (cs : List Char) : Option Rat :=
    match splitChar '.' cs with
    | [ip] => if allDigits ip then some ((digitsToNat ip : Rat)) else none
    | [ip, fp] =>
      if (allDigits ip || ip.isEmpty) && (allDigits fp || fp.isEmpty)
          && !(ip.isEmpty && fp.isEmpty) then
        some ((digitsToNat ip : Rat) + (digitsToNat fp : Rat) / ((10 : Rat) ^ fp.length))
      else none
    | _ => none

/-- The amount cleanup per cell (lines 104-105): astype(str) then strip the
dollar signs and commas and convert back with float. Floats round-trip,
missing values go through the string nan and stay NaN, timestamps fail the
float conversion. -/
def clean_amount_cell : Cell → Except ImportError Cell
  | .null => .ok .null
  | .num q => .ok (.num q)
  | .date _ _ _ => .error (.floatParse "timestamp")
  | .str s =>
    match parse_float (strip_money s) with
    | some q => .ok (.num q)
    | none => .error (.floatParse s)

/-- Object dtype of the amount column, modelled as the presence of string
cells (string amounts are the object-dtype case this pipeline meets). -/
def dtype_object (col : List Cell) : Bool :=
  col.any (fun c => match c with | .str _ => true | _ => false)

/-- Adds the column filled with nulls when it is absent (the loops at
lines 90-101). -/
def ensure_column (df : DataFrame) (n : String) : DataFrame :=
  if df.any (fun p => p.1 == n) then df
  else df ++ [(n, List.replicate (df_num_rows df) Cell.null)]

/-- Folds ensure_column over the required and standard column names. -/
def ensure_columns (df : DataFrame) (ns : List String) : DataFrame :=
  ns.foldl ensure_column df

/-- The final column selection df[[...]] (line 108), raising KeyError on an
absent name. -/
def select_columns (df : DataFrame) (ns : List String) : Except ImportError DataFrame :=
  mapExcept (fun n => match df_get_col df n with
    | some col => .ok (n, col)
    | none => .error (.keyError n)) ns

/-! ## import_statement (src/utils/data_import.py lines 11-111) -/

/-- The source-specific rename dicts of the CSV branch (lines 26-68); an
unknown source raises ValueError. -/
def source_rename_map (source : String) : Option (List (String × String)) :=
  if source = "wells_fargo" then
    some [("Date", "date"), ("Description", "description"), ("Amount", "amount")]
  else if source = "chase" then
    some [("Transaction Date", "date"), ("Post Date", "post_date"),
          ("Description", "description"), ("Amount", "amount"),
          ("Category", "original_category")]
  else if source = "bank_of_america" then
    some [("Posted Date", "date"), ("Payee", "description"), ("Amount", "amount")]
  else if source = "apple_pay" then
    some [("Date", "date"), ("Description", "description"), ("Amount (USD)", "amount")]
  else if source = "schwab" then
    some [("Date", "date"), ("Description", "description"), ("Amount", "amount")]
  else none

/-- The shared tail of import_statement (lines 79-108): date standardization,
the sign flip for chase and wells_fargo, the source column, the
ensure-columns loops, the amount cleanup, and the final selection. -/
def import_pipeline (currentYear : Nat) (df0 : DataFrame) (source : String) :
    Except ImportError DataFrame :=
  match df_get_col df0 "date" with
  | none => .error (.keyError "date")
  | some dateCol =>
    match mapExcept (to_datetime_cell currentYear) dateCol with
    | .error e => .error e
    | .ok parsed =>
      let df1 := df_set_col df0 "date" parsed
      let flipped : Except ImportError DataFrame :=
        if source = "chase" || source = "wells_fargo" then
          match df_get_col df1 "amount" with
          | none => .error (.keyError "amount")
          | some amtCol =>
            match mapExcept negate_cell amtCol with
            | .error e => .error e
            | .ok neg => .ok (df_set_col df1 "amount" neg)
        else .ok df1
      match flipped with
      | .error e => .error e
      | .ok df2 =>
        let df3 := df_set_col df2 "source" (List.replicate (df_num_rows df2) (Cell.str source))
        let df4 := ensure_columns df3
          ["date", "description", "amount", "source", "category", "original_category"]
        match df_get_col df4 "amount" with
        | none => .error (.keyError "amount")
        | some amtCol =>
          if dtype_object amtCol then
            match mapExcept clean_amount_cell amtCol with
            | .error e => .error e
            | .ok cleaned =>
              select_columns (df_set_col df4 "amount" cleaned)
                ["date", "description", "amount", "source", "category", "original_category"]
          else
            select_columns df4
              ["date", "description", "amount", "source", "category", "original_category"]

/-- import_statement (src/utils/data_import.py lines 11-111). csv stands for
the table pd.read_csv produced from the file, and pdfExtract for the result
of the unmodelled extract_tables_from_pdf; currentYear is the calendar year
pandas reads from the clock. Every raised exception surfaces as an error
value, matching the wrapper that re-raises at line 111. -/
def import_statement (currentYear : Nat) (filepath : String) (csv : DataFrame)
    (pdfExtract : DataFrame) (source : String) : Except ImportError DataFrame :=
  let ft := detect_file_type filepath
  if ft = "csv" then
    match source_rename_map source with
    | none => .error (.unsupportedSource source)
    | some m => import_pipeline currentYear (rename_columns m csv) source
  else if ft = "pdf" then
    if df_empty pdfExtract then .error (.extractionFailure source)
    else import_pipeline currentYear pdfExtract source
  else .error (.unsupportedFormat ft)

/-- The year of the first date cell of the date column, if any. -/
def first_date_year (df : DataFrame) : Option Nat :=
  match df_get_col df "date" with
  | some (Cell.date y _ _ :: _) => some y
  | _ => none

/-- The year of the first imported date on the success path. -/
def import_first_date_year (r : Except ImportError DataFrame) : Option Nat :=
  match r with
  | .ok df => first_date_year df
  | .error _ => none

/-! ## Generic column fallback of the PDF table path
(src/utils/data_import.py lines 219-228) -/

/-- The month tokens the date test scans for. -/
def month_tokens : List String :=
  ["jan", "feb", "mar", "apr", "may", "jun", "jul", "aug", "sep", "oct", "nov", "dec"]

/-- The description keywords of the elif at line 225. -/
def description_tokens : List String :=
  ["description", "payee", "merchant", "transaction"]

/-- The amount keywords of the elif at line 227. -/
def amount_tokens : List String :=
  ["amount", "sum", "total", "$"]

/-- One step of the column-identification loop in extract_tables_from_pdf
(lines 219-228): date keywords are tested first, then description keywords,
then amount keywords, all as case-insensitive substrings; an unmatched
column keeps its name. -/
def identify_pdf_column (col : String) : String :=
  if listContains "date".data (lowerStr col)
      || month_tokens.any (fun m => listContains m.data (lowerStr col)) then "date"
  else if description_tokens.any (fun m => listContains m.data (lowerStr col)) then "description"
  else if amount_tokens.any (fun m => listContains m.data (lowerStr col)) then "amount"
  else col

/-! ## The upload page flow (src/pages/import_data.py lines 30-184) -/

/-- The exit paths of the upload-handling block of main. -/
inductive PageExit where
  | unsupportedFormat
  | exceptionHandled
  | completed
deriving Repr, DecidableEq

/-- The temporary path the page writes the upload to (line 56). -/
def temp_upload_path (uid uploadedName : String) : String :=
  "temp_uploads/" ++ uid ++ "_" ++ uploadedName

/-- Models the upload-handling block of main (src/pages/import_data.py lines
50-184) with respect to the lifetime of the temporary file: the unknown
file-type check at lines 63-65 returns before the cleanup at lines 178-179,
while both the normal fall-through and the except arm at lines 181-184
remove the file. raises abstracts any exception thrown by the body after the
file-type check. The second component reports whether the temporary file
still exists when the block is left. -/
def import_page_run (uid uploadedName : String) (raises : Bool) : PageExit × Bool :=
  let tempPath := temp_upload_path uid uploadedName
  if detect_file_type tempPath = "unknown" then (PageExit.unsupportedFormat, true)
  else if raises then (PageExit.exceptionHandled, false)
  else (PageExit.completed, false)

/-! ## Rectangularity of a dataframe and concrete test fixtures -/

/-- Every column of the dataframe has exactly n cells. -/
def ColsLen (n : Nat) (df : DataFrame) : Prop :=
  ∀ p ∈ df, p.2.length = n

/-- An income transaction used to instantiate the sign-invariant theorem. -/
def c1_tx : Transaction :=
  { date := none, description := some "payroll deposit", amount := 5,
    source := "schwab", category := some "Income", original_category := none }

/-- A row that already carries a category and also a bank category: the
categorizer overwrites its category from the bank one. -/
def c5_tx : Transaction :=
  { date := none, description := some "corner shop", amount := -10,
    source := "chase", category := some "Shopping", original_category := some "Food & Drink" }

/-- A row with an existing category and no bank category: the categorizer
preserves it. -/
def c5_keep_tx : Transaction :=
  { date := none, description := some "misc", amount := -3,
    source := "chase", category := some "Travel", original_category := none }

/-- An uncategorized row whose description matches the Dining keywords. -/
def c6_tx : Transaction :=
  { date := none, description := some "Starbucks Coffee #123", amount := -4,
    source := "wells_fargo", category := none, original_category := none }

/-- A csv table whose headers bind no date-like column. -/
def fooBarBaz : DataFrame :=
  [("Foo", [Cell.str "x"]), ("Bar", [Cell.str "y"]), ("Baz", [Cell.str "z"])]

/-- A one-row schwab csv whose date value carries no year: the claimed
filename-based year recovery would have to repair it. -/
def csv2023 : DataFrame :=
  [("Date", [Cell.str "03/15"]), ("Description", [Cell.str "STORE"]), ("Amount", [Cell.num 5])]

/-- A two-row csv whose first date parses and whose second date value is
unparseable. -/
def csvBadDate : DataFrame :=
  [("Date", [Cell.str "03/15/2024", Cell.str "notadate"]),
   ("Description", [Cell.str "A", Cell.str "B"]),
   ("Amount", [Cell.num 1, Cell.num 2])]

/-- A one-row csv whose single date value is unparseable. -/
def c4_bad : DataFrame :=
  [("Date", [Cell.str "nope"]), ("Description", [Cell.str "A"]), ("Amount", [Cell.num 1])]

/-- A one-row schwab csv with a fully dated row that imports successfully. -/
def csv_ok : DataFrame :=
  [("Date", [Cell.str "03/15/2024"]), ("Description", [Cell.str "STORE"]),
   ("Amount", [Cell.num 5])]

/-- The canonical output of importing csv_ok as schwab. -/
def c4_out : DataFrame :=
  [("date", [Cell.date 2024 3 15]), ("description", [Cell.str "STORE"]),
   ("amount", [Cell.num 5]), ("source", [Cell.str "schwab"]),
   ("category", [Cell.null]), ("original_category", [Cell.null])]

/-! # Helper lemmas -/

/-- Sign normalization preserves the batch length. -/
theorem normalize_length (df : List Transaction) :
    (normalize_transaction_signs df).length = df.length := by
  simp [normalize_transaction_signs]

/-- Categorization preserves the batch length. -/
theorem categorize_length (df : List Transaction) :
    (categorize_transactions df).length = df.length := by
  unfold categorize_transactions
  split <;> simp

/-- The three outcomes of apply_sign: a zero amount passes through, an income
category yields a positive amount, anything else a negative amount. -/
theorem apply_sign_cases (t : Transaction) :
    (t.amount = 0 ∧ apply_sign t = t.amount) ∨
    (0 < apply_sign t ∧ ∃ c, t.category = some c ∧ c ∈ get_income_categories) ∨
    (apply_sign t < 0 ∧ ∀ c, t.category = some c → c ∉ get_income_categories) := by
  by_cases h0 : t.amount = 0
  · exact Or.inl ⟨h0, by rw [apply_sign, if_pos h0]⟩
  · have habs : 0 < |t.amount| := abs_pos.mpr h0
    rcases hcat : t.category with _ | c
    · refine Or.inr (Or.inr ⟨?_, ?_⟩)
      · have hnone : ¬((match t.category with
            | some c => get_income_categories.contains c
            | none => false) = true) := by rw [hcat]; simp
        have hv : apply_sign t = -|t.amount| := by
          rw [apply_sign, if_neg h0, if_neg hnone]
        rw [hv]
        exact neg_lt_zero.mpr habs
      · intro c hc
        exact Option.noConfusion hc
    · by_cases hin : get_income_categories.contains c = true
      · refine Or.inr (Or.inl ⟨?_, c, rfl, by simpa using hin⟩)
        have hin' : (match t.category with
            | some c => get_income_categories.contains c
            | none => false) = true := by rw [hcat]; exact hin
        have hv : apply_sign t = |t.amount| := by
          rw [apply_sign, if_neg h0, if_pos hin']
        rw [hv]
        exact habs
      · refine Or.inr (Or.inr ⟨?_, ?_⟩)
        · have hin' : ¬((match t.category with
              | some c => get_income_categories.contains c
              | none => false) = true) := by rw [hcat]; exact hin
          have hv : apply_sign t = -|t.amount| := by
            rw [apply_sign, if_neg h0, if_neg hin']
          rw [hv]
          exact neg_lt_zero.mpr habs
        · intro c' hc' hmem
          cases hc'
          exact hin (by simpa using hmem)

/-- apply_sign only changes the sign, never the magnitude. -/
theorem abs_apply_sign (t : Transaction) : |apply_sign t| = |t.amount| := by
  unfold apply_sign
  split_ifs with h1 h2
  · rfl
  · exact abs_abs _
  · rw [abs_neg]
    exact abs_abs _

/-- The first categorization row function is idempotent. -/
theorem categorize_row_with_original_idem (t : Transaction) :
    categorize_row_with_original (categorize_row_with_original t)
      = categorize_row_with_original t := by
  rcases t with ⟨dt, ds, am, src, cat, oc⟩
  cases oc <;> rfl

/-- The second categorization row function is idempotent. -/
theorem categorize_row_keyword_idem (t : Transaction) :
    categorize_row_keyword (categorize_row_keyword t) = categorize_row_keyword t := by
  rcases t with ⟨dt, ds, am, src, cat, oc⟩
  cases cat <;> rfl

/-- Mapping a row function that preserves original_category does not change
the branch test of categorize_transactions. -/
theorem any_orig_map_row (f : Transaction → Transaction)
    (hf : ∀ t, (f t).original_category = t.original_category) (df : List Transaction) :
    (df.map f).any (fun t => t.original_category.isSome)
      = df.any (fun t => t.original_category.isSome) := by
  rw [List.any_map]
  congr 1
  funext t
  simp [Function.comp, hf t]

/-- A columnwise Except map that succeeds preserves the column length. -/
theorem mapExcept_ok_length {α β : Type} {f : α → Except ImportError β} :
    ∀ {l : List α} {l' : List β}, mapExcept f l = .ok l' → l'.length = l.length := by
  intro l
  induction l with
  | nil =>
    intro l' h
    simp [mapExcept] at h
    subst h
    rfl
  | cons a as ih =>
    intro l' h
    unfold mapExcept at h
    split at h
    · exact absurd h (by simp)
    · split at h
      · exact absurd h (by simp)
      · cases h
        simp
        exact ih ‹_›

/-- A successful association lookup returns the payload of some member. -/
theorem lookup_mem {α β : Type} [BEq α] :
    ∀ {l : List (α × β)} {k : α} {v : β}, l.lookup k = some v → ∃ p ∈ l, p.2 = v := by
  intro l
  induction l with
  | nil => intro k v h; simp [List.lookup] at h
  | cons p ps ih =>
    intro k v h
    rcases p with ⟨k', v'⟩
    simp only [List.lookup] at h
    cases hk : (k == k') with
    | true =>
      simp [hk] at h
      exact ⟨(k', v'), by simp, h⟩
    | false =>
      simp [hk] at h
      obtain ⟨q, hq, hv⟩ := ih h
      exact ⟨q, by simp [hq], hv⟩

/-- A successful association lookup needs a non-empty list. -/
theorem lookup_some_ne_nil {α β : Type} [BEq α] {l : List (α × β)} {k : α} {v : β}
    (h : l.lookup k = some v) : l ≠ [] := by
  intro hnil
  subst hnil
  simp [List.lookup] at h

/-- Renaming columns preserves every column length. -/
theorem rename_cols_len {n : Nat} {m : List (String × String)} {df : DataFrame}
    (h : ColsLen n df) : ColsLen n (rename_columns m df) := by
  intro p hp
  rw [rename_columns, List.mem_map] at hp
  obtain ⟨q, hq, rfl⟩ := hp
  exact h q hq

/-- Setting a column of the right length preserves rectangularity. -/
theorem set_col_cols_len {n : Nat} {df : DataFrame} {name : String} {v : List Cell}
    (h : ColsLen n df) (hv : v.length = n) : ColsLen n (df_set_col df name v) := by
  intro p hp
  unfold df_set_col at hp
  split at hp
  · rw [List.mem_map] at hp
    obtain ⟨q, hq, rfl⟩ := hp
    by_cases hq1 : q.1 == name
    · simp [hq1, hv]
    · simp only [hq1, if_neg]
      exact h q hq
  · rw [List.mem_append] at hp
    rcases hp with hp | hp
    · exact h p hp
    · simp at hp
      subst hp
      exact hv

/-- Setting a column never empties a dataframe. -/
theorem set_col_ne_nil {df : DataFrame} {name : String} {v : List Cell} :
    df_set_col df name v ≠ [] := by
  unfold df_set_col
  split
  · rename_i hcond
    cases df with
    | nil => simp at hcond
    | cons p ps => simp
  · simp

/-- In a non-empty rectangular dataframe the row count is the common column
length. -/
theorem num_rows_of_cols_len {n : Nat} {df : DataFrame} (hne : df ≠ []) (h : ColsLen n df) :
    df_num_rows df = n := by
  cases df with
  | nil => exact absurd rfl hne
  | cons p ps => exact h p (by simp)

/-- ensure_column preserves rectangularity and non-emptiness. -/
theorem ensure_column_cols_len {n : Nat} {df : DataFrame} {c : String}
    (hne : df ≠ []) (h : ColsLen n df) :
    ColsLen n (ensure_column df c) ∧ ensure_column df c ≠ [] := by
  unfold ensure_column
  split
  · exact ⟨h, hne⟩
  · constructor
    · intro p hp
      rw [List.mem_append] at hp
      rcases hp with hp | hp
      · exact h p hp
      · simp at hp
        subst hp
        simp [num_rows_of_cols_len hne h]
    · simp

/-- ensure_columns preserves rectangularity and non-emptiness. -/
theorem ensure_columns_cols_len {n : Nat} :
    ∀ (ns : List String) (df : DataFrame), df ≠ [] → ColsLen n df →
      ColsLen n (ensure_columns df ns) ∧ ensure_columns df ns ≠ [] := by
  intro ns
  induction ns with
  | nil => intro df hne h; exact ⟨h, hne⟩
  | cons c cs ih =>
    intro df hne h
    have h1 := ensure_column_cols_len (c := c) hne h
    exact ih _ h1.2 h1.1

/-- A successful column selection only returns columns of the dataframe. -/
theorem select_columns_cols_len {n : Nat} {df : DataFrame} (h : ColsLen n df) :
    ∀ {ns : List String} {out : DataFrame}, select_columns df ns = .ok out → ColsLen n out := by
  intro ns
  induction ns with
  | nil =>
    intro out hout
    unfold select_columns mapExcept at hout
    cases hout
    intro p hp
    simp at hp
  | cons c cs ih =>
    intro out hout
    unfold select_columns mapExcept at hout
    split at hout
    · exact absurd hout (by simp)
    rename_i hd hhd
    split at hout
    · exact absurd hout (by simp)
    rename_i tl htl
    cases hout
    have hhd2 : hd.2.length = n := by
      split at hhd
      · rename_i col hcol
        cases hhd
        obtain ⟨q, hq, hv⟩ := lookup_mem hcol
        rw [← hv]
        exact h q hq
      · exact absurd hhd (by simp)
    intro p hp
    rcases List.mem_cons.mp hp with hp | hp
    · subst hp
      exact hhd2
    · exact ih htl p hp

/-- A successful column selection returns one column per requested name. -/
theorem select_columns_ok_length {df : DataFrame} {ns : List String} {out : DataFrame}
    (h : select_columns df ns = .ok out) : out.length = ns.length :=
  mapExcept_ok_length h

/-- The shared import pipeline maps an n-rowed rectangular table to an
n-rowed rectangular table when it succeeds. -/
theorem import_pipeline_cols_len {y : Nat} {df0 : DataFrame} {src : String} {n : Nat}
    {out : DataFrame} (hcols : ColsLen n df0) (h : import_pipeline y df0 src = .ok out) :
    ColsLen n out ∧ df_num_rows out = n := by
  unfold import_pipeline at h
  split at h
  · exact absurd h (by simp)
  rename_i dateCol hdate
  split at h
  · exact absurd h (by simp)
  rename_i parsed hparsed
  have hne0 : df0 ≠ [] := lookup_some_ne_nil hdate
  have hdlen : parsed.length = n := by
    obtain ⟨q, hq, hv⟩ := lookup_mem hdate
    rw [mapExcept_ok_length hparsed, ← hv]
    exact hcols q hq
  have hcols1 : ColsLen n (df_set_col df0 "date" parsed) := set_col_cols_len hcols hdlen
  simp only at h
  split at h
  · exact absurd h (by simp)
  rename_i df2 hdf2
  have hcols2 : ColsLen n df2 := by
    split at hdf2
    · split at hdf2
      · exact absurd hdf2 (by simp)
      · rename_i amtCol hamt
        split at hdf2
        · exact absurd hdf2 (by simp)
        · rename_i neg hneg
          cases hdf2
          refine set_col_cols_len hcols1 ?_
          obtain ⟨q, hq, hv⟩ := lookup_mem hamt
          rw [mapExcept_ok_length hneg, ← hv]
          exact hcols1 q hq
    · cases hdf2
      exact hcols1
  have hne2 : df2 ≠ [] := by
    split at hdf2
    · split at hdf2
      · exact absurd hdf2 (by simp)
      · split at hdf2
        · exact absurd hdf2 (by simp)
        · cases hdf2
          exact set_col_ne_nil
    · cases hdf2
      exact set_col_ne_nil
  have hcols3 : ColsLen n (df_set_col df2 "source" (List.replicate (df_num_rows df2) (Cell.str src))) :=
    set_col_cols_len hcols2 (by simp [num_rows_of_cols_len hne2 hcols2])
  have h4 := ensure_columns_cols_len
    ["date", "description", "amount", "source", "category", "original_category"]
    _ (set_col_ne_nil) hcols3
  have houtlen : ∀ {outx : DataFrame},
      select_columns (ensure_columns (df_set_col df2 "source"
          (List.replicate (df_num_rows df2) (Cell.str src)))
          ["date", "description", "amount", "source", "category", "original_category"])
        ["date", "description", "amount", "source", "category", "original_category"] = .ok outx →
      ColsLen n outx ∧ df_num_rows outx = n := by
    intro outx hsel
    have hlen := select_columns_cols_len h4.1 hsel
    have hne : outx ≠ [] := by
      intro hnil
      have := select_columns_ok_length hsel
      rw [hnil] at this
      simp at this
    exact ⟨hlen, num_rows_of_cols_len hne hlen⟩
  split at h
  · exact absurd h (by simp)
  rename_i amtCol hamt
  split at h
  · split at h
    · exact absurd h (by simp)
    · rename_i cleaned hclean
      have hamtlen : cleaned.length = n := by
        obtain ⟨q, hq, hv⟩ := lookup_mem hamt
        rw [mapExcept_ok_length hclean, ← hv]
        exact h4.1 q hq
      have h5 : ColsLen n (df_set_col (ensure_columns (df_set_col df2 "source"
          (List.replicate (df_num_rows df2) (Cell.str src)))
          ["date", "description", "amount", "source", "category", "original_category"])
          "amount" cleaned) := set_col_cols_len h4.1 hamtlen
      have hlen := select_columns_cols_len h5 h
      have hne : out ≠ [] := by
        intro hnil
        have := select_columns_ok_length h
        rw [hnil] at this
        simp at this
      exact ⟨hlen, num_rows_of_cols_len hne hlen⟩
  · exact houtlen h

/-- A csv import whose leading date string parses to a date outside the
Timestamp bounds fails the whole batch with OutOfBoundsDatetime. -/
theorem import_out_of_bounds {y : Nat} {filepath source : String} {csv pdfX : DataFrame}
    {m : List (String × String)} {s : String} {rest : List Cell} {y0 m0 d0 : Nat}
    (hft : detect_file_type filepath = "csv")
    (hm : source_rename_map source = some m)
    (hdate : df_get_col (rename_columns m csv) "date" = some (Cell.str s :: rest))
    (hparse : parse_date y s = some (y0, m0, d0))
    (hbounds : timestamp_in_bounds y0 m0 d0 = false) :
    import_statement y filepath csv pdfX source
      = Except.error (ImportError.outOfBoundsDatetime s) := by
  simp [import_statement, hft, hm, import_pipeline, hdate, mapExcept, to_datetime_cell,
    hparse, hbounds]

/-! # Claim theorems -/

/-- Claim C1: after normalize_transaction_signs, a positive amount implies a
category in the income set, a negative amount implies a category outside it
(a null category counts as outside), and rows whose amount is zero are left
unchanged. -/
theorem C1_sign_invariant (df : List Transaction) :
    (∀ t ∈ normalize_transaction_signs df,
      (0 < t.amount → ∃ c, t.category = some c ∧ c ∈ get_income_categories) ∧
      (t.amount < 0 → ∀ c, t.category = some c → c ∉ get_income_categories)) ∧
    (∀ i : Fin df.length, (df.get i).amount = 0 →
      (normalize_transaction_signs df).get ⟨i.1, by rw [normalize_length]; exact i.2⟩
        = df.get i) := by
  constructor
  · intro t ht
    rw [normalize_transaction_signs, List.mem_map] at ht
    obtain ⟨a, ha, rfl⟩ := ht
    have hc := apply_sign_cases a
    constructor
    · intro hpos
      change 0 < apply_sign a at hpos
      rcases hc with ⟨h0, hv⟩ | ⟨hv, hex⟩ | ⟨hv, _⟩
      · rw [hv, h0] at hpos
        exact absurd hpos (lt_irrefl 0)
      · exact hex
      · exact absurd hpos (not_lt.mpr (le_of_lt hv))
    · intro hneg
      change apply_sign a < 0 at hneg
      rcases hc with ⟨h0, hv⟩ | ⟨hv, _⟩ | ⟨_, hall⟩
      · rw [hv, h0] at hneg
        exact absurd hneg (lt_irrefl 0)
      · exact absurd hneg (not_lt.mpr (le_of_lt hv))
      · exact hall
  · intro i h0
    have hv : apply_sign (df.get i) = (df.get i).amount := by
      rw [apply_sign, if_pos h0]
    simp only [normalize_transaction_signs, List.get_eq_getElem, List.getElem_map]
    rw [List.get_eq_getElem] at hv
    rw [hv]

/-- Claim C1 witness: the invariant instantiated on a concrete income row. -/
theorem C1_sign_invariant_witness :
    ∃ c, ({ c1_tx with amount := apply_sign c1_tx } : Transaction).category = some c
      ∧ c ∈ get_income_categories :=
  ((C1_sign_invariant [c1_tx]).1 _ (by decide)).1 (by decide)

/-- Claim C2 counterexample: importing a csv whose headers are Foo, Bar, Baz
fails with the generic KeyError-derived error naming date, which is not the
MissingColumnError carrying the seen headers that the claim requires. -/
theorem C2_missing_date_counterexample :
    import_statement 2026 "statement.csv" fooBarBaz [] "wells_fargo"
      = Except.error (ImportError.keyError "date") ∧
    ImportError.keyError "date" ≠ ImportError.missingColumn "date" ["Foo", "Bar", "Baz"] := by
  decide

/-- Claim C2 amended: for every csv import whose source rename leaves no date
column, the import fails with the wrapped KeyError naming date; no header
list is attached and no MissingColumnError exists. -/
theorem C2_missing_date_amended (y : Nat) (filepath source : String)
    (csv pdfX : DataFrame) (m : List (String × String))
    (hft : detect_file_type filepath = "csv")
    (hm : source_rename_map source = some m)
    (hdate : df_get_col (rename_columns m csv) "date" = none) :
    import_statement y filepath csv pdfX source = Except.error (ImportError.keyError "date") := by
  simp [import_statement, hft, hm, import_pipeline, hdate]

/-- Claim C2 witness: the amended statement on the Foo, Bar, Baz table under
the chase source. -/
theorem C2_missing_date_witness :
    import_statement 2025 "other.csv" fooBarBaz [] "chase"
      = Except.error (ImportError.keyError "date") :=
  C2_missing_date_amended 2025 "other.csv" "chase" fooBarBaz [] _ (by decide) rfl (by decide)

/-- Claim C3 counterexample: the raw value 03/15 imported from the file named
2023_statement.csv yields no recovered date at all, let alone one with year
2023: pandas parses it against the year-1 default and the import fails with
an out-of-bounds timestamp error. -/
theorem C3_year_recovery_counterexample :
    import_statement 2026 "2023_statement.csv" csv2023 [] "schwab"
      = Except.error (ImportError.outOfBoundsDatetime "03/15") ∧
    import_first_date_year (import_statement 2026 "2023_statement.csv" csv2023 [] "schwab")
      ≠ some 2023 := by
  decide

/-- Claim C3 amended: no fallback year is inferred from the filename, sheet
name, column headers, or the current year: a year-less MM/DD parses with
the pandas year-1 default, which is below the Timestamp bounds, so for every
ambient year the import of the 2023-named file fails with the out-of-bounds
error instead of recovering a date. -/
theorem C3_year_recovery_amended :
    (∀ y : Nat, parse_date y "03/15" = some (1, 3, 15)) ∧
    timestamp_in_bounds 1 3 15 = false ∧
    (∀ (y : Nat) (filepath source : String) (csv pdfX : DataFrame)
        (m : List (String × String)) (s : String) (rest : List Cell) (y0 m0 d0 : Nat),
      detect_file_type filepath = "csv" →
      source_rename_map source = some m →
      df_get_col (rename_columns m csv) "date" = some (Cell.str s :: rest) →
      parse_date y s = some (y0, m0, d0) →
      timestamp_in_bounds y0 m0 d0 = false →
      import_statement y filepath csv pdfX source
        = Except.error (ImportError.outOfBoundsDatetime s)) ∧
    (∀ y : Nat, import_statement y "2023_statement.csv" csv2023 [] "schwab"
      = Except.error (ImportError.outOfBoundsDatetime "03/15")) :=
  ⟨fun _ => rfl, by decide,
   fun _ _ _ _ _ _ _ _ _ _ _ hft hm hdate hparse hbounds =>
     import_out_of_bounds hft hm hdate hparse hbounds,
   fun y => @import_out_of_bounds y "2023_statement.csv" "schwab" csv2023 [] _
     "03/15" [] 1 3 15 (by decide) rfl (by decide) rfl (by decide)⟩

/-- Claim C3 witness: the amended propagation statement discharged at the
concrete ambient year 2026 on the 2023-named file. -/
theorem C3_year_recovery_witness :
    import_statement 2026 "2023_statement.csv" csv2023 [] "schwab"
      = Except.error (ImportError.outOfBoundsDatetime "03/15") :=
  C3_year_recovery_amended.2.2.1 2026 "2023_statement.csv" "schwab" csv2023 [] _
    "03/15" [] 1 3 15 (by decide) rfl (by decide) (by decide) (by decide)

/-- Claim C4 counterexample: a batch whose first date parses and whose second
date value is unparseable fails as a whole instead of dropping the bad row
and returning the remaining one with a reported drop count. -/
theorem C4_drop_policy_counterexample :
    import_statement 2026 "2024_list.csv" csvBadDate [] "schwab"
      = Except.error (ImportError.dateParse "notadate") := by
  decide

/-- Claim C4 amended: rows are never dropped: a successful csv import returns
exactly one output row per input row with no drop count to report, and an
unparseable date value fails the whole batch, shown on a concrete one-row
batch. -/
theorem C4_drop_policy_amended :
    (∀ (y : Nat) (filepath source : String) (csv pdfX out : DataFrame)
        (m : List (String × String)),
      detect_file_type filepath = "csv" →
      source_rename_map source = some m →
      ColsLen (df_num_rows csv) csv →
      import_statement y filepath csv pdfX source = Except.ok out →
      ColsLen (df_num_rows csv) out ∧ df_num_rows out = df_num_rows csv) ∧
    import_statement 7 "b.csv" c4_bad [] "schwab"
      = Except.error (ImportError.dateParse "nope") := by
  constructor
  · intro y filepath source csv pdfX out m hft hm hrect h
    have h' : import_pipeline y (rename_columns m csv) source = .ok out := by
      simpa [import_statement, hft, hm] using h
    exact import_pipeline_cols_len (rename_cols_len hrect) h'
  · decide

/-- Claim C4 witness: the no-drop conjunct instantiated on a one-row import
that succeeds and returns exactly one row. -/
theorem C4_drop_policy_witness :
    ColsLen (df_num_rows csv_ok) c4_out ∧ df_num_rows c4_out = df_num_rows csv_ok :=
  C4_drop_policy_amended.1 2026 "2024_statement.csv" "schwab" csv_ok [] c4_out
    _ (by decide) rfl
    (by intro p hp; simp [csv_ok] at hp; rcases hp with rfl | rfl | rfl <;> decide)
    (by decide)

/-- Claim C5 counterexample: a row that already carries the category Shopping
but also the bank category Food & Drink is re-classified to Dining, so
already-categorized rows are not always preserved. -/
theorem C5_reclassification_counterexample :
    c5_tx.category = some "Shopping" ∧
    (categorize_transactions [c5_tx]).map Transaction.category = [some "Dining"] := by
  decide

/-- Claim C5 amended: categorization is idempotent, and an already-categorized
row is preserved when it carries no bank original_category; a row with a
non-null original_category is re-mapped from it, overwriting any existing
category. -/
theorem C5_idempotent_amended :
    (∀ df : List Transaction,
      categorize_transactions (categorize_transactions df) = categorize_transactions df) ∧
    (∀ df : List Transaction, ∀ i : Fin df.length,
      (df.get i).original_category = none → (df.get i).category ≠ none →
      ((categorize_transactions df).get ⟨i.1, by rw [categorize_length]; exact i.2⟩).category
        = (df.get i).category) := by
  constructor
  · intro df
    by_cases hb : df.any (fun t => t.original_category.isSome) = true
    · have h1 : categorize_transactions df = df.map categorize_row_with_original := by
        unfold categorize_transactions
        rw [if_pos hb]
      have h2 : (df.map categorize_row_with_original).any (fun t => t.original_category.isSome)
          = true := by
        rw [any_orig_map_row categorize_row_with_original (fun t => rfl) df]
        exact hb
      rw [h1]
      unfold categorize_transactions
      rw [if_pos h2, List.map_map,
        show categorize_row_with_original ∘ categorize_row_with_original
            = categorize_row_with_original from funext categorize_row_with_original_idem]
    · have h1 : categorize_transactions df = df.map categorize_row_keyword := by
        unfold categorize_transactions
        rw [if_neg hb]
      have h2 : ¬((df.map categorize_row_keyword).any (fun t => t.original_category.isSome)
          = true) := by
        rw [any_orig_map_row categorize_row_keyword (fun t => rfl) df]
        exact hb
      rw [h1]
      unfold categorize_transactions
      rw [if_neg h2, List.map_map,
        show categorize_row_keyword ∘ categorize_row_keyword
            = categorize_row_keyword from funext categorize_row_keyword_idem]
  · intro df i h1 h2
    obtain ⟨c, hc⟩ := Option.ne_none_iff_exists'.mp h2
    simp only [List.get_eq_getElem] at h1 hc ⊢
    by_cases hb : df.any (fun t => t.original_category.isSome) = true
    · have h3 : categorize_transactions df = df.map categorize_row_with_original := by
        unfold categorize_transactions
        rw [if_pos hb]
      simp [h3, List.getElem_map, categorize_row_with_original, h1, hc]
    · have h3 : categorize_transactions df = df.map categorize_row_keyword := by
        unfold categorize_transactions
        rw [if_neg hb]
      simp [h3, List.getElem_map, categorize_row_keyword, hc]

/-- Claim C5 witness: idempotence on a concrete batch, and preservation of an
existing category on a row without a bank category. -/
theorem C5_idempotent_witness :
    categorize_transactions (categorize_transactions [c5_keep_tx])
      = categorize_transactions [c5_keep_tx] ∧
    ((categorize_transactions [c5_keep_tx]).get
        ⟨0, by rw [categorize_length]; decide⟩).category
      = (([c5_keep_tx] : List Transaction).get ⟨0, by decide⟩).category :=
  ⟨C5_idempotent_amended.1 [c5_keep_tx],
   C5_idempotent_amended.2 [c5_keep_tx] ⟨0, by decide⟩ (by decide) (by decide)⟩

/-- Claim C6: the keyword categorizer is a fixed function: Starbucks Coffee
number 123 yields Dining, Trader Joes number 45 yields Groceries, a null or
empty description yields Uncategorized, a no-keyword description yields
Miscellaneous; and a batch row without original_category and without a prior
category receives exactly get_category of its description. -/
theorem C6_keyword_determinism :
    get_category (some "Starbucks Coffee #123") = "Dining" ∧
    get_category (some "Trader Joe\x27s #45") = "Groceries" ∧
    get_category none = "Uncategorized" ∧
    get_category (some "") = "Uncategorized" ∧
    get_category (some "XYZ9382 transfer") = "Miscellaneous" ∧
    (∀ df : List Transaction, ∀ i : Fin df.length,
      (df.get i).original_category = none → (df.get i).category = none →
      ((categorize_transactions df).get ⟨i.1, by rw [categorize_length]; exact i.2⟩).category
        = some (get_category (df.get i).description)) := by
  refine ⟨by decide, by decide, by decide, by decide, by decide, ?_⟩
  intro df i h1 h2
  simp only [List.get_eq_getElem] at h1 h2 ⊢
  by_cases hb : df.any (fun t => t.original_category.isSome) = true
  · have h3 : categorize_transactions df = df.map categorize_row_with_original := by
      unfold categorize_transactions
      rw [if_pos hb]
    simp [h3, List.getElem_map, categorize_row_with_original, h1, h2]
  · have h3 : categorize_transactions df = df.map categorize_row_keyword := by
      unfold categorize_transactions
      rw [if_neg hb]
    simp [h3, List.getElem_map, categorize_row_keyword, h2]

/-- Claim C6 witness: the batch conjunct instantiated on a one-row batch with
the Starbucks description. -/
theorem C6_keyword_determinism_witness :
    ((categorize_transactions [c6_tx]).get ⟨0, by rw [categorize_length]; decide⟩).category
      = some (get_category (([c6_tx] : List Transaction).get ⟨0, by decide⟩).description) :=
  C6_keyword_determinism.2.2.2.2.2 [c6_tx] ⟨0, by decide⟩ (by decide) (by decide)

/-- Claim C7 counterexample: the generic pattern fallback binds a column
literally named Transaction Amount to description, not to amount, because the
description keywords (including transaction) are tested first. -/
theorem C7_fallback_counterexample :
    identify_pdf_column "Transaction Amount" = "description" ∧
    identify_pdf_column "Transaction Amount" ≠ "amount" := by
  decide

/-- Claim C7 amended: the fallback tests date keywords, then description
keywords (transaction among them), then amount keywords, so Transaction
Amount binds to description; a column matching an amount keyword and no
earlier keyword binds to amount. -/
theorem C7_fallback_amended :
    identify_pdf_column "Transaction Amount" = "description" ∧
    (∀ col : String,
      amount_tokens.any (fun m => listContains m.data (lowerStr col)) = true →
      (listContains "date".data (lowerStr col)
        || month_tokens.any (fun m => listContains m.data (lowerStr col))) = false →
      description_tokens.any (fun m => listContains m.data (lowerStr col)) = false →
      identify_pdf_column col = "amount") := by
  refine ⟨by decide, ?_⟩
  intro col h1 h2 h3
  unfold identify_pdf_column
  rw [h1, h2, h3]
  rfl

/-- Claim C7 witness: a column named Amount, matching no date or description
keyword, binds to amount. -/
theorem C7_fallback_witness :
    identify_pdf_column "Amount" = "amount" :=
  C7_fallback_amended.2 "Amount" (by decide) (by decide) (by decide)

/-- Claim C8: the file type detector is total and deterministic, returns a
value among csv, pdf, xlsx, xls, unknown, depends only on the extension of
the lowercased path, and maps every extension other than .csv and .pdf
(including a missing one) to unknown. -/
theorem C8_detect_file_type (p q : String) :
    detect_file_type p ∈ (["csv", "pdf", "xlsx", "xls", "unknown"] : List String) ∧
    (splitext_ext (lowerStr p) = splitext_ext (lowerStr q) →
      detect_file_type p = detect_file_type q) ∧
    (splitext_ext (lowerStr p) ≠ ".csv".data → splitext_ext (lowerStr p) ≠ ".pdf".data →
      detect_file_type p = "unknown") := by
  refine ⟨?_, ?_, ?_⟩
  · unfold detect_file_type extension_class
    split_ifs <;> simp
  · intro h
    unfold detect_file_type
    rw [h]
  · intro h1 h2
    unfold detect_file_type extension_class
    rw [if_neg h1, if_neg h2]

/-- Claim C8 witness: the detector on a concrete xlsx path returns unknown,
a member of the allowed result set. -/
theorem C8_detect_file_type_witness :
    detect_file_type "report.xlsx" = "unknown" ∧
    detect_file_type "report.xlsx" ∈ (["csv", "pdf", "xlsx", "xls", "unknown"] : List String) :=
  ⟨(C8_detect_file_type "report.xlsx" "report.xlsx").2.2 (by decide) (by decide),
   (C8_detect_file_type "report.xlsx" "report.xlsx").1⟩

/-- Claim C9: the unsupported-format validation failure returns from the
upload block before the cleanup line runs, leaving the temporary upload file
in place, contrary to the delete-on-every-exit-path requirement. -/
theorem C9_temp_file_leak :
    (import_page_run "ab12" "notes.txt" false).1 = PageExit.unsupportedFormat ∧
    (import_page_run "ab12" "notes.txt" false).2 = true := by
  decide

/-- Claim C10: normalize_transaction_signs only rewrites the amount sign: the
batch length, the absolute amount and every other field of every row are
preserved (the source copies the frame, so the input is not mutated). -/
theorem C10_sign_frame (df : List Transaction) :
    (normalize_transaction_signs df).length = df.length ∧
    ∀ i : Fin df.length,
      |((normalize_transaction_signs df).get
          ⟨i.1, by rw [normalize_length]; exact i.2⟩).amount| = |(df.get i).amount| ∧
      ((normalize_transaction_signs df).get
          ⟨i.1, by rw [normalize_length]; exact i.2⟩).date = (df.get i).date ∧
      ((normalize_transaction_signs df).get
          ⟨i.1, by rw [normalize_length]; exact i.2⟩).description = (df.get i).description ∧
      ((normalize_transaction_signs df).get
          ⟨i.1, by rw [normalize_length]; exact i.2⟩).source = (df.get i).source ∧
      ((normalize_transaction_signs df).get
          ⟨i.1, by rw [normalize_length]; exact i.2⟩).category = (df.get i).category ∧
      ((normalize_transaction_signs df).get
          ⟨i.1, by rw [normalize_length]; exact i.2⟩).original_category
        = (df.get i).original_category := by
  refine ⟨normalize_length df, fun i => ?_⟩
  simp only [normalize_transaction_signs, List.get_eq_getElem, List.getElem_map]
  exact ⟨abs_apply_sign _, trivial, trivial, trivial, trivial, trivial⟩

/-- Claim C10 witness: the frame conditions instantiated on a one-row batch. -/
theorem C10_sign_frame_witness :
    |((normalize_transaction_signs [c5_tx]).get
        ⟨0, by rw [normalize_length]; decide⟩).amount|
      = |(([c5_tx] : List Transaction).get ⟨0, by decide⟩).amount| ∧
    ((normalize_transaction_signs [c5_tx]).get
        ⟨0, by rw [normalize_length]; decide⟩).category
      = (([c5_tx] : List Transaction).get ⟨0, by decide⟩).category :=
  ⟨((C10_sign_frame [c5_tx]).2 ⟨0, by decide⟩).1,
   ((C10_sign_frame [c5_tx]).2 ⟨0, by decide⟩).2.2.2.2.1⟩

end PFT
